import Mathlib

/-!
# Verification of the ablogger monitoring core

A shallow embedding, in Lean 4, of the A/B-test monitoring service:

* `BrowserCheckService` (browser check executor and cookie codec,
  `src/backend/src/services/browserCheckService.ts`),
* `MonitoringService` (run orchestrator,
  `src/backend/src/services/monitoringService.ts`),
* `FailureService` (resolution workflow,
  `src/backend/src/services/failureService.ts`),

together with theorems settling the specified properties of these
components.  JavaScript strings are modelled as Lean `String`
(a list of characters), JavaScript numbers occurring in the modelled
code paths are integers and are modelled as `Int`/`Nat`, promise
rejection is modelled with `Except`, and the relational store is an
explicit state record threaded through the orchestrator.
-/

namespace ABLogger

/-! ## JavaScript primitives -/

/-- Whether `pat` occurs as a contiguous run inside `l`. -/
def listContainsRun (pat : List Char) : List Char → Bool
  | [] => pat.isPrefixOf ([] : List Char)
  | c :: rest => pat.isPrefixOf (c :: rest) || listContainsRun pat rest

/-- JavaScript `String.prototype.includes`: `jsIncludes s pat` is
`s.includes(pat)`. -/
def jsIncludes (s pat : String) : Bool :=
  listContainsRun pat.data s.data

/-- JavaScript `a || b` on strings: the empty string is falsy. -/
def jsOrStr (a b : String) : String :=
  if a.isEmpty then b else a

/-- JavaScript `String.prototype.slice(0, e)`: a negative end counts from
the end of the string, and the end is clamped to the string length. -/
def jsSliceEnd (s : String) (e : Int) : String :=
  let n : Nat := s.data.length
  let stop : Nat := if e < 0 then ((n : Int) + e).toNat else min e.toNat n
  String.mk (s.data.take stop)

/-- A JSON value as produced by `JSON.parse`, extended with a
constructor for JavaScript `undefined` (the result of reading an absent
property). -/
inductive Json where
  | undefined : Json
  | null : Json
  | bool (b : Bool) : Json
  | num (n : Int) : Json
  | str (s : String) : Json
  | arr (elems : List Json) : Json
  | obj (fields : List (String × Json)) : Json
deriving Repr, BEq

/-- JavaScript property access `j[k]`: reading a property of a non-object
or an absent property yields `undefined`. -/
def Json.getField : Json → String → Json
  | .obj fields, k =>
    match fields.lookup k with
    | some v => v
    | none => .undefined
  | _, _ => .undefined

/-- JavaScript truthiness of a value. -/
def Json.truthy : Json → Bool
  | .undefined => false
  | .null => false
  | .bool b => b
  | .num n => n != 0
  | .str s => !s.isEmpty
  | .arr _ => true
  | .obj _ => true

/-- `typeof j === 'string'`. -/
def Json.isStr : Json → Bool
  | .str _ => true
  | _ => false

/-- `typeof j === 'number'`. -/
def Json.isNum : Json → Bool
  | .num _ => true
  | _ => false

/-- The string held by a JSON value (`""` for non-strings; only applied
to values already checked to be strings). -/
def Json.asString : Json → String
  | .str s => s
  | _ => ""

/-- JavaScript object spread `{...j, k: v}`: every field of `j` is kept
except `k`, which is (re)bound to `v`. -/
def Json.setField : Json → String → Json → Json
  | .obj fields, k, v => .obj ((fields.filter (fun p => p.1 != k)) ++ [(k, v)])
  | j, _, _ => j

/-- JavaScript `a || b` on arbitrary values. -/
def jsOrJson (a b : Json) : Json :=
  if a.truthy then a else b

/-! ## Configuration (`src/backend/src/config/env.ts`)

The fields of the global `config` object used by the monitoring core,
with the default values taken by each field when the corresponding
environment variable is unset. -/

structure Config where
  browserTimeout : Nat := 30000
  maxConcurrentChecks : Nat := 5
  cookieName : String := "ab_test_error"
  maxRetries : Nat := 3
  retryDelayMs : Nat := 1000
  maxErrorMessageLength : Nat := 2000
deriving Repr, DecidableEq

/-- The configuration with every field at its default. -/
def cfgD : Config := {}

/-! ## Data model (`src/backend/src/types` and the database schema) -/

/-- The `check_status` enum of the `url_checks` table. -/
inductive CheckStatus where
  | success
  | timeout
  | error
  | unreachable
deriving Repr, DecidableEq

/-- The canonical (verbose) failure-report cookie shape. -/
structure ABTestErrorCookie where
  test_id : String
  variant : String
  error_type : String
  error_message : String
  browser : String
  timestamp : String
deriving Repr, DecidableEq

/-- The result of one browser check (`BrowserCheckResult`). -/
structure BrowserCheckResult where
  success : Bool
  pageLoadTimeMs : Option Int
  cookieFound : Bool
  errorDetected : Bool
  errorData : Option ABTestErrorCookie
  screenshotPath : Option String
  checkStatus : CheckStatus
  errorMessage : Option String
deriving Repr, DecidableEq

/-- A row of `monitored_urls` (fields used by the orchestrator). -/
structure MonitoredUrl where
  url_id : Nat
  client_id : Nat
  url : String
  is_active : Bool
  has_active_test : Bool
deriving Repr, DecidableEq

/-- A row of `browser_configurations` (fields used by the orchestrator). -/
structure BrowserConfiguration where
  config_id : Nat
  browser_name : String
  device_type : String
  is_active : Bool
deriving Repr, DecidableEq

/-! ## Compact-code lookup tables

The backend `types` module maps compact error-type and browser codes to
canonical strings.  The tables are the ones emitted by the client SDK
(`client-sdk/ab-error-logger.js`, `ERROR_TYPES` and `BROWSERS`), which
the backend decodes. -/

def ERROR_TYPE_CODES : List (String × String) :=
  [("JS", "javascript_error"),
   ("NW", "network_error"),
   ("TO", "timeout"),
   ("RN", "render_error"),
   ("AP", "api_error"),
   ("VL", "validation_error"),
   ("AU", "auth_error"),
   ("CF", "config_error"),
   ("UK", "unknown")]

def BROWSER_CODES : List (String × String) :=
  [("CH", "chrome"),
   ("FF", "firefox"),
   ("SF", "safari"),
   ("ED", "edge"),
   ("OP", "opera"),
   ("BR", "brave"),
   ("UK", "unknown")]

/-- Indexing a string-keyed table with a JavaScript value
(`ERROR_TYPE_CODES[compact.e]`).  A non-string index is coerced to a
string by JavaScript; no coercion of a non-string value matches any key
of these tables, so the access yields `undefined`. -/
def lookupCodeTable (table : List (String × String)) : Json → Json
  | .str s =>
    match table.lookup s with
    | some v => .str v
    | none => .undefined
  | _ => .undefined

/-! ## Instant formatting (`new Date(ms).toISOString()`) -/

/-- Left-pad a decimal numeral with zeros to the given width. -/
def padZeros (s : String) (w : Nat) : String :=
  String.mk (List.replicate (w - s.length) '0') ++ s

/-- Convert a day count relative to 1970-01-01 to a civil
(year, month, day) date, proleptic Gregorian calendar. -/
def civilFromDays (days : Int) : Int × Nat × Nat :=
  let z : Int := days + 719468
  let era : Int := z.fdiv 146097
  let doe : Nat := (z - era * 146097).toNat
  let yoe : Nat := (doe - doe / 1460 + doe / 36524 - doe / 146096) / 365
  let doy : Nat := doe - (365 * yoe + yoe / 4 - yoe / 100)
  let mp : Nat := (5 * doy + 2) / 153
  let d : Nat := doy - (153 * mp + 2) / 5 + 1
  let m : Nat := if mp < 10 then mp + 3 else mp - 9
  let y : Int := (yoe : Int) + era * 400 + (if m ≤ 2 then 1 else 0)
  (y, m, d)

/-- `new Date(ms).toISOString()` for a millisecond timestamp inside the
representable range of a JavaScript `Date`. -/
def dateToISOString (ms : Int) : String :=
  let days : Int := ms.fdiv 86400000
  let msod : Nat := (ms - days * 86400000).toNat
  let ymd := civilFromDays days
  let y := ymd.1
  let m := ymd.2.1
  let d := ymd.2.2
  let yearStr : String :=
    if 0 ≤ y ∧ y ≤ 9999 then padZeros (toString y.toNat) 4
    else (if y < 0 then "-" else "+") ++ padZeros (toString y.natAbs) 6
  yearStr ++ "-" ++ padZeros (toString m) 2 ++ "-" ++ padZeros (toString d) 2 ++
    "T" ++ padZeros (toString (msod / 3600000)) 2 ++
    ":" ++ padZeros (toString (msod % 3600000 / 60000)) 2 ++
    ":" ++ padZeros (toString (msod % 60000 / 1000)) 2 ++
    "." ++ padZeros (toString (msod % 1000)) 3 ++ "Z"

/-- The largest absolute millisecond timestamp a JavaScript `Date` can
hold; `toISOString` throws a `RangeError` beyond it. -/
def maxDateRangeMs : Nat := 8640000000000000

/-! ## BrowserCheckService (`src/backend/src/services/browserCheckService.ts`)

The single-check executor.  Interaction with the real browser is
abstracted: the outcome of one navigation attempt (did it settle, how
long it took, which signaling cookie value the page left behind, where
the screenshot was written) is an input to the embedded functions, and
everything the service computes from that outcome is translated
directly from the source. -/

namespace BrowserCheckService

/-- `truncateErrorMessage`: clamp an error message to the configured
maximum length, appending an ellipsis marker. -/
def truncateErrorMessage (cfg : Config) (message : String) : String :=
  if message.length ≤ cfg.maxErrorMessageLength then
    message
  else
    let truncated := jsSliceEnd message ((cfg.maxErrorMessageLength : Int) - 3)
    truncated ++ "..."

/-- `isCompactFormat`: the cookie data is in compact format when it is a
truthy value whose `t` property is a string and whose `ts` property is a
number. -/
def isCompactFormat (data : Json) : Bool :=
  data.truthy && (data.getField "t").isStr && (data.getField "ts").isNum

/-- `decodeCompactCookie`: rebuild the full-format report object from a
compact one.  An unrecognized `e`/`b` code falls back (via `||`) to the
raw code; the Unix-seconds timestamp is converted to an ISO string. -/
def decodeCompactCookie (compact : Json) : Json :=
  .obj [
    ("test_id", compact.getField "t"),
    ("variant", compact.getField "v"),
    ("error_type",
      jsOrJson (lookupCodeTable ERROR_TYPE_CODES (compact.getField "e")) (compact.getField "e")),
    ("error_message", compact.getField "m"),
    ("browser",
      jsOrJson (lookupCodeTable BROWSER_CODES (compact.getField "b")) (compact.getField "b")),
    ("timestamp",
      match compact.getField "ts" with
      | .num n => .str (dateToISOString (n * 1000))
      | _ => .undefined)]

/-- The outcome of `decodeURIComponent` + `JSON.parse` on the raw cookie
value: either the parse threw, or it produced a JSON value. -/
inductive CookieParseOutcome where
  | malformed : CookieParseOutcome
  | parsed (data : Json) : CookieParseOutcome
deriving Repr

/-- `parseCookieValue`: decode the raw cookie value, accepting both the
compact and the full format; any exception inside the `try` (a JSON
parse error, or the `RangeError` thrown by `toISOString` on an
out-of-range compact timestamp) yields `null`. -/
def parseCookieValue (cookieValue : CookieParseOutcome) : Option Json :=
  match cookieValue with
  | .malformed => none
  | .parsed data =>
    if isCompactFormat data then
      match data.getField "ts" with
      | .num ts =>
        if ts.natAbs * 1000 ≤ maxDateRangeMs then some (decodeCompactCookie data)
        else none
      | _ => none
    else
      some data

/-- `isRetryableError`: whether an error message matches one of the
patterns treated as transient. -/
def isRetryableError (errorMessage : String) : Bool :=
  ["Timeout",
   "net::ERR_",
   "ECONNREFUSED",
   "ECONNRESET",
   "ETIMEDOUT",
   "ENOTFOUND",
   "socket hang up",
   "Navigation failed",
   "Target closed",
   "Browser closed"].any (fun pattern => jsIncludes errorMessage pattern)

/-- `isUnreachableError`: whether an error message indicates the site is
unreachable. -/
def isUnreachableError (errorMessage : String) : Bool :=
  ["net::ERR_NAME_NOT_RESOLVED",
   "net::ERR_CONNECTION_REFUSED",
   "net::ERR_CONNECTION_RESET",
   "net::ERR_CONNECTION_CLOSED",
   "net::ERR_CONNECTION_TIMED_OUT",
   "net::ERR_INTERNET_DISCONNECTED",
   "net::ERR_ADDRESS_UNREACHABLE",
   "net::ERR_NETWORK_CHANGED",
   "net::ERR_SSL_PROTOCOL_ERROR",
   "net::ERR_CERT_",
   "net::ERR_EMPTY_RESPONSE",
   "net::ERR_FAILED",
   "ECONNREFUSED",
   "ECONNRESET",
   "ENOTFOUND",
   "EHOSTUNREACH",
   "EAI_AGAIN",
   "ENETUNREACH",
   "DNS resolution failed",
   "getaddrinfo"].any (fun pattern => jsIncludes errorMessage pattern)

/-- `getUnreachableErrorMessage`: map an unreachable-class error message
to a user-friendly description. -/
def getUnreachableErrorMessage (cfg : Config) (errorMessage : String) : String :=
  if jsIncludes errorMessage "ERR_NAME_NOT_RESOLVED" || jsIncludes errorMessage "ENOTFOUND" then
    "Site unreachable: DNS resolution failed - domain name could not be resolved"
  else if jsIncludes errorMessage "ERR_CONNECTION_REFUSED" || jsIncludes errorMessage "ECONNREFUSED" then
    "Site unreachable: Connection refused - server is not accepting connections"
  else if jsIncludes errorMessage "ERR_CONNECTION_RESET" || jsIncludes errorMessage "ECONNRESET" then
    "Site unreachable: Connection reset - server closed the connection unexpectedly"
  else if jsIncludes errorMessage "ERR_CONNECTION_TIMED_OUT" || jsIncludes errorMessage "ETIMEDOUT" then
    "Site unreachable: Connection timed out - server did not respond"
  else if jsIncludes errorMessage "ERR_SSL" || jsIncludes errorMessage "ERR_CERT_" then
    "Site unreachable: SSL/Certificate error - secure connection could not be established"
  else if jsIncludes errorMessage "ERR_INTERNET_DISCONNECTED" then
    "Site unreachable: No internet connection available"
  else if jsIncludes errorMessage "ERR_ADDRESS_UNREACHABLE" || jsIncludes errorMessage "EHOSTUNREACH" then
    "Site unreachable: Host address is unreachable"
  else if jsIncludes errorMessage "ERR_EMPTY_RESPONSE" then
    "Site unreachable: Server returned an empty response"
  else
    "Site unreachable: " ++ truncateErrorMessage cfg errorMessage

/-- The classification performed on a navigation exception (shared by
`createFailureResult` and the `catch` block of `performSingleCheck`):
an explicit `Timeout` marker wins, then the unreachable patterns, then
the generic `error` status.  `message = none` models a missing
`error.message` (both `error?.message` and `error.message &&` guard it
off). -/
def classifyFailure (cfg : Config) (message : Option String) : CheckStatus × String :=
  let msg := match message with
    | some m => m
    | none => ""
  if (match message with
      | some m => jsIncludes m "Timeout"
      | none => false) then
    (.timeout, "Page load timeout after " ++ toString cfg.browserTimeout ++ "ms")
  else if isUnreachableError msg then
    (.unreachable, getUnreachableErrorMessage cfg msg)
  else
    (.error, truncateErrorMessage cfg (jsOrStr msg "Unknown error"))

/-- `createFailureResult`: build a failed `BrowserCheckResult` from an
error.  `pageLoadTimeMs` is `Date.now() - startTime`; the source calls
this with `startTime = Date.now()`, which we model as elapsed time 0
(the two clock reads are modelled as the same instant). -/
def createFailureResult (cfg : Config) (message : Option String) (pageLoadTimeMs : Int) :
    BrowserCheckResult :=
  let classified := classifyFailure cfg message
  { success := false
    pageLoadTimeMs := some pageLoadTimeMs
    cookieFound := false
    errorDetected := false
    errorData := none
    screenshotPath := none
    checkStatus := classified.1
    errorMessage := some classified.2 }

/-- `isValidErrorData`: the parsed report has the six required string
fields. -/
def isValidErrorData (data : Json) : Bool :=
  data.truthy &&
    (data.getField "test_id").isStr &&
    (data.getField "variant").isStr &&
    (data.getField "error_type").isStr &&
    (data.getField "error_message").isStr &&
    (data.getField "browser").isStr &&
    (data.getField "timestamp").isStr

/-- Convert a validated full-format report object into the typed record
stored on the check result. -/
def cookieOfJson (data : Json) : ABTestErrorCookie :=
  { test_id := (data.getField "test_id").asString
    variant := (data.getField "variant").asString
    error_type := (data.getField "error_type").asString
    error_message := (data.getField "error_message").asString
    browser := (data.getField "browser").asString
    timestamp := (data.getField "timestamp").asString }

/-- The outcome of one navigation attempt, as observed by
`performSingleCheck`: either the page settled (with the elapsed load
time, the raw value of the signaling cookie if the browser context held
one, and the path the screenshot would be written to), or navigation
threw with the given message. -/
inductive NavOutcome where
  | ok (pageLoadTimeMs : Int) (errorCookie : Option CookieParseOutcome) (screenshotPath : String) :
      NavOutcome
  | exn (pageLoadTimeMs : Int) (message : String) : NavOutcome
deriving Repr

/-- `performSingleCheck`: one browser session against one URL.  The
browser interaction itself is the `NavOutcome` input; everything
computed from it follows the source. -/
def performSingleCheck (cfg : Config) (nav : NavOutcome) : BrowserCheckResult :=
  match nav with
  | .ok pageLoadTimeMs errorCookie screenshotPath =>
    match errorCookie with
    | none =>
      -- No error cookie found
      { success := true
        pageLoadTimeMs := some pageLoadTimeMs
        cookieFound := false
        errorDetected := false
        errorData := none
        screenshotPath := none
        checkStatus := .success
        errorMessage := none }
    | some cookieValue =>
      match parseCookieValue cookieValue with
      | none =>
        { success := true
          pageLoadTimeMs := some pageLoadTimeMs
          cookieFound := true
          errorDetected := false
          errorData := none
          screenshotPath := none
          checkStatus := .success
          errorMessage := some "Invalid cookie format" }
      | some errorData =>
        if !isValidErrorData errorData then
          { success := true
            pageLoadTimeMs := some pageLoadTimeMs
            cookieFound := true
            errorDetected := false
            errorData := none
            screenshotPath := none
            checkStatus := .success
            errorMessage := some "Invalid error data structure" }
        else
          -- Truncate error message if too long, then capture screenshot
          let errorData := errorData.setField "error_message"
            (.str (truncateErrorMessage cfg (errorData.getField "error_message").asString))
          { success := true
            pageLoadTimeMs := some pageLoadTimeMs
            cookieFound := true
            errorDetected := true
            errorData := some (cookieOfJson errorData)
            screenshotPath := some screenshotPath
            checkStatus := .success
            errorMessage := none }
  | .exn pageLoadTimeMs message =>
    let classified := classifyFailure cfg (some message)
    { success := false
      pageLoadTimeMs := some pageLoadTimeMs
      cookieFound := false
      errorDetected := false
      errorData := none
      screenshotPath := none
      checkStatus := classified.1
      errorMessage := some classified.2 }

/-- One attempt as seen by the retry loop in `checkUrl`: either
`performSingleCheck` resolved with a navigation outcome, or the promise
rejected with an error message. -/
inductive AttemptOutcome where
  | result (nav : NavOutcome) : AttemptOutcome
  | thrown (message : String) : AttemptOutcome
deriving Repr

/-- The observable behaviour of one `checkUrl` call: the returned
result, the argument of every `delay(...)` call in order, and the
number of `performSingleCheck` attempts performed. -/
structure CheckTrace where
  result : BrowserCheckResult
  delays : List Nat
  attemptsUsed : Nat
deriving Repr, DecidableEq

/-- The retry loop of `checkUrl`.  `attempt` is the loop counter
(starting at 1), `fuel` the number of loop iterations left
(`cfg.maxRetries - attempt + 1`), `lastError` the message of the last
retryable failure. -/
def checkUrlLoop (cfg : Config) (attempts : Nat → AttemptOutcome) :
    Nat → Nat → Option String → List Nat → CheckTrace
  | _attempt, 0, lastError, delays =>
    -- All retries exhausted
    { result := createFailureResult cfg lastError 0
      delays := delays
      attemptsUsed := cfg.maxRetries }
  | attempt, fuel + 1, _lastError, delays =>
    match attempts attempt with
    | .result nav =>
      let result := performSingleCheck cfg nav
      -- If successful or non-retryable error, return immediately
      if result.success || !isRetryableError (match result.errorMessage with
          | some m => m
          | none => "") then
        { result := result, delays := delays, attemptsUsed := attempt }
      else if attempt < cfg.maxRetries then
        checkUrlLoop cfg attempts (attempt + 1) fuel result.errorMessage
          (delays ++ [cfg.retryDelayMs * attempt])
      else
        checkUrlLoop cfg attempts (attempt + 1) fuel result.errorMessage delays
    | .thrown message =>
      if !isRetryableError message || attempt == cfg.maxRetries then
        -- Non-retryable error or last attempt - return failure
        { result := createFailureResult cfg (some message) 0
          delays := delays
          attemptsUsed := attempt }
      else
        checkUrlLoop cfg attempts (attempt + 1) fuel (some message)
          (delays ++ [cfg.retryDelayMs * attempt])

/-- `checkUrl`: check a URL with retry logic.  The sequence of attempt
outcomes (one per loop iteration) is the `attempts` input. -/
def checkUrl (cfg : Config) (attempts : Nat → AttemptOutcome) : CheckTrace :=
  checkUrlLoop cfg attempts 1 cfg.maxRetries none []

end BrowserCheckService

/-! ## MonitoringService (`src/backend/src/services/monitoringService.ts`)

The run orchestrator.  The relational store is modelled as an explicit
`DbState`; the browser layer and the two read queries are supplied by a
`MonitoringEnv`.  Operations on the run row, the `url_checks` insert and
the `detected_failures` insert are modelled as reliable state updates;
a run-level exception is injected through the environment (the result
of a read query, or a progress update rejecting after a batch), and is
propagated with `Except`. -/

namespace MonitoringService

/-- The status column of `monitoring_runs`. -/
inductive RunStatus where
  | running
  | completed
  | failed
  | cancelled
deriving Repr, DecidableEq

/-- The `monitoring_runs` row of the current run. -/
structure RunRow where
  triggered_by : String
  status : RunStatus
  total_urls_checked : Nat
  total_checks_expected : Nat
  total_errors_found : Nat
  current_url : Option String
  current_browser : Option String
  completed_at : Bool
deriving Repr, DecidableEq

/-- A row of `url_checks`. -/
structure UrlCheckRow where
  check_id : Nat
  run_id : Nat
  url_id : Nat
  config_id : Nat
  page_load_time_ms : Option Int
  cookie_found : Bool
  error_detected : Bool
  check_status : CheckStatus
  error_message : Option String
deriving Repr, DecidableEq

/-- A row of `detected_failures`.  `timestamp_from_cookie` keeps the raw
cookie timestamp string (the JavaScript `Date` parse of that string is
not modelled; no verified property depends on the parsed value).  The
resolution columns start at their schema defaults. -/
structure DetectedFailureRow where
  failure_id : Nat
  check_id : Nat
  url_id : Nat
  client_id : Nat
  test_id : String
  variant : String
  error_type : String
  error_message : String
  browser_from_cookie : String
  timestamp_from_cookie : String
  resolution_status : String := "new"
  resolved_at : Bool := false
  resolved_by : Option Nat := none
  resolution_notes : Option String := none
deriving Repr, DecidableEq

/-- The slice of the database a monitoring run writes to. -/
structure DbState where
  run : RunRow
  urlChecks : List UrlCheckRow
  failures : List DetectedFailureRow
  screenshots : List (Nat × String)
  nextCheckId : Nat
  nextFailureId : Nat
deriving Repr, DecidableEq

/-- The collaborators of one `runMonitoring` call: the two read queries
(each either a row list or a rejection), the outcome of
`browserCheckService.checkUrl` per (url, browser-configuration) pair
(`Except.error` models the promise rejecting), and an optional injected
rejection of the per-batch progress update. -/
structure MonitoringEnv where
  urlsQuery : Except String (List MonitoredUrl)
  configsQuery : Except String (List BrowserConfiguration)
  check : Nat → Nat → Except String BrowserCheckResult
  progressFail : Nat → Option String

/-- The result type of `performCheck`. -/
structure CheckResult where
  hasError : Bool
  isUnreachable : Bool
  checkStatus : CheckStatus
deriving Repr, DecidableEq

/-- `isUnreachableError` (the orchestrator's own, shorter pattern
list). -/
def isUnreachableError (errorMessage : String) : Bool :=
  ["net::ERR_NAME_NOT_RESOLVED",
   "net::ERR_CONNECTION_REFUSED",
   "net::ERR_CONNECTION_RESET",
   "net::ERR_CONNECTION_CLOSED",
   "net::ERR_CONNECTION_TIMED_OUT",
   "net::ERR_INTERNET_DISCONNECTED",
   "net::ERR_ADDRESS_UNREACHABLE",
   "ECONNREFUSED",
   "ECONNRESET",
   "ENOTFOUND",
   "EHOSTUNREACH"].any (fun pattern => jsIncludes errorMessage pattern)

/-- `INSERT INTO url_checks ...`: append the row and return its id. -/
def insertUrlCheck (s : DbState) (row : Nat → UrlCheckRow) : Nat × DbState :=
  (s.nextCheckId,
   { s with
      urlChecks := s.urlChecks ++ [row s.nextCheckId]
      nextCheckId := s.nextCheckId + 1 })

/-- `recordFailure`: insert the `detected_failures` row and, when a
screenshot was captured (a truthy path), its `failure_screenshots`
row. -/
def recordFailure (s : DbState) (checkId urlId clientId : Nat)
    (errorData : ABTestErrorCookie) (screenshotPath : Option String) : DbState :=
  let failureId := s.nextFailureId
  let s1 : DbState :=
    { s with
        failures := s.failures ++ [{
          failure_id := failureId
          check_id := checkId
          url_id := urlId
          client_id := clientId
          test_id := errorData.test_id
          variant := errorData.variant
          error_type := errorData.error_type
          error_message := errorData.error_message
          browser_from_cookie := errorData.browser
          timestamp_from_cookie := errorData.timestamp }]
        nextFailureId := s.nextFailureId + 1 }
  match screenshotPath with
  | some p =>
    if p.isEmpty then s1
    else { s1 with screenshots := s1.screenshots ++ [(failureId, p)] }
  | none => s1

/-- `updateRunProgress`: set the progress counters and the
currently-executing display fields on the run row. -/
def updateRunProgress (s : DbState) (totalChecked totalExpected : Nat)
    (currentUrl currentBrowser : Option String) : DbState :=
  { s with
      run := { s.run with
        total_urls_checked := totalChecked
        total_checks_expected := totalExpected
        current_url := currentUrl
        current_browser := currentBrowser } }

/-- `updateRunProgressWithErrors`: as `updateRunProgress`, also setting
the error counter. -/
def updateRunProgressWithErrors (s : DbState) (totalChecked totalExpected totalErrors : Nat)
    (currentUrl currentBrowser : Option String) : DbState :=
  { s with
      run := { s.run with
        total_urls_checked := totalChecked
        total_checks_expected := totalExpected
        total_errors_found := totalErrors
        current_url := currentUrl
        current_browser := currentBrowser } }

/-- `completeRun`: stamp the completion time, freeze the counters, set
the terminal status and clear the currently-executing fields. -/
def completeRun (s : DbState) (totalChecked totalErrorsFound : Nat) (status : RunStatus) :
    DbState :=
  { s with
      run := { s.run with
        completed_at := true
        total_urls_checked := totalChecked
        total_errors_found := totalErrorsFound
        status := status
        current_url := none
        current_browser := none } }

/-- `performCheck`: run one browser check and persist its `url_checks`
row; every exception of the inner `try` (here: a rejected
`checkUrl` promise) is caught and still persists a row.  Returns the
`CheckResult` consumed by the batch loop. -/
def performCheck (runId : Nat) (url : MonitoredUrl) (browserConfig : BrowserConfiguration)
    (outcome : Except String BrowserCheckResult) (s : DbState) : CheckResult × DbState :=
  match outcome with
  | .ok result =>
    let inserted := insertUrlCheck s (fun checkId => {
      check_id := checkId
      run_id := runId
      url_id := url.url_id
      config_id := browserConfig.config_id
      page_load_time_ms := result.pageLoadTimeMs
      cookie_found := result.cookieFound
      error_detected := result.errorDetected
      check_status := result.checkStatus
      error_message := result.errorMessage })
    let checkId := inserted.1
    let s1 := inserted.2
    match result.errorData with
    | some errorData =>
      if result.errorDetected then
        -- If error detected (from cookie), create failure record
        let s2 := recordFailure s1 checkId url.url_id url.client_id errorData
          result.screenshotPath
        ({ hasError := true, isUnreachable := false, checkStatus := result.checkStatus }, s2)
      else
        let isUnreach := result.checkStatus == .unreachable
        ({ hasError := !result.success || result.checkStatus == .error ||
              result.checkStatus == .timeout || isUnreach
           isUnreachable := isUnreach
           checkStatus := result.checkStatus }, s1)
    | none =>
      let isUnreach := result.checkStatus == .unreachable
      ({ hasError := !result.success || result.checkStatus == .error ||
            result.checkStatus == .timeout || isUnreach
         isUnreachable := isUnreach
         checkStatus := result.checkStatus }, s1)
  | .error errorMessage =>
    -- Check threw: classify, record a failed check
    let isUnreach := isUnreachableError errorMessage
    let checkStatus : CheckStatus := if isUnreach then .unreachable else .error
    let inserted := insertUrlCheck s (fun checkId => {
      check_id := checkId
      run_id := runId
      url_id := url.url_id
      config_id := browserConfig.config_id
      page_load_time_ms := none
      cookie_found := false
      error_detected := false
      check_status := checkStatus
      error_message := some errorMessage })
    ({ hasError := true, isUnreachable := isUnreach, checkStatus := checkStatus }, inserted.2)

/-- One (URL, browser configuration) work item. -/
def CheckTask : Type := MonitoredUrl × BrowserConfiguration

/-- Split the task list into concurrency batches of size `n` (the inner
`for` loop stepping by `config.maxConcurrentChecks`), by fuel recursion
on the list length.  For `n = 0` the source loop would never advance;
the model returns no batches, and every theorem about the batch loop
assumes `0 < n`. -/
def chunksGo (n : Nat) : Nat → List CheckTask → List (List CheckTask)
  | _, [] => []
  | 0, _ :: _ => []
  | fuel + 1, a :: rest => ((a :: rest).take n) :: chunksGo n fuel ((a :: rest).drop n)

/-- The batches of a task list. -/
def chunks (n : Nat) (l : List CheckTask) : List (List CheckTask) :=
  chunksGo n l.length l

/-- Process one batch: run `performCheck` for each task and collect the
settled results (all `performCheck` promises fulfil — every exception
is caught inside it — so `Promise.allSettled` yields them in order). -/
def processBatch (runId : Nat) (env : MonitoringEnv) (batch : List CheckTask) (s : DbState) :
    List CheckResult × DbState :=
  match batch with
  | [] => ([], s)
  | task :: rest =>
    let step := performCheck runId task.1 task.2 (env.check task.1.url_id task.2.config_id) s
    let further := processBatch runId env rest step.2
    (step.1 :: further.1, further.2)

/-- The batch loop of `runMonitoring`: per batch, update the
currently-executing display fields, run the batch, accumulate the
counters, then persist progress (the progress update may reject, which
escapes the loop).  Returns the final (checked, errors) counters. -/
def runBatches (cfg : Config) (env : MonitoringEnv) (runId totalExpected : Nat) :
    List (List CheckTask) → Nat → Nat → Nat → DbState →
    Except String (Nat × Nat) × DbState
  | [], _, totalChecked, totalErrorsFound, s => (.ok (totalChecked, totalErrorsFound), s)
  | batch :: rest, batchIdx, totalChecked, totalErrorsFound, s =>
    -- Update current URL/browser being checked (use first item in batch)
    let s1 := updateRunProgress s totalChecked totalExpected
      (batch.head?.map (fun t => t.1.url)) (batch.head?.map (fun t => t.2.browser_name))
    let batchRun := processBatch runId env batch s1
    let results := batchRun.1
    let s2 := batchRun.2
    let totalChecked' := totalChecked + results.length
    let totalErrorsFound' := totalErrorsFound + (results.filter (fun r => r.hasError)).length
    match env.progressFail batchIdx with
    | some e => (.error e, s2)
    | none =>
      let s3 := updateRunProgressWithErrors s2 totalChecked' totalExpected totalErrorsFound'
        none none
      runBatches cfg env runId totalExpected rest (batchIdx + 1) totalChecked' totalErrorsFound' s3

/-- The body of the `try` block of `runMonitoring`: fetch the active
URLs and browser configurations, build the task matrix, process it in
batches, and complete the run. -/
def runMonitoringTry (cfg : Config) (env : MonitoringEnv) (runId : Nat) (s : DbState) :
    Except String Nat × DbState :=
  match env.urlsQuery with
  | .error e => (.error e, s)
  | .ok urls =>
    let activeUrls := urls.filter (fun u => u.is_active && u.has_active_test)
    if activeUrls.length = 0 then
      (.ok runId, completeRun s 0 0 .completed)
    else
      match env.configsQuery with
      | .error e => (.error e, s)
      | .ok configs =>
        let browserConfigs := configs.filter (fun c => c.is_active)
        if browserConfigs.length = 0 then
          (.ok runId, completeRun s 0 0 .completed)
        else
          -- Generate all URL + browser combinations
          let checkTasks : List CheckTask :=
            activeUrls.flatMap (fun url => browserConfigs.map (fun c => (url, c)))
          -- Update run with total expected checks
          let s1 := updateRunProgress s 0 checkTasks.length none none
          match runBatches cfg env runId checkTasks.length
              (chunks cfg.maxConcurrentChecks checkTasks) 0 0 0 s1 with
          | (.error e, s2) => (.error e, s2)
          | (.ok counters, s2) =>
            (.ok runId, completeRun s2 counters.1 counters.2 .completed)

/-- The database state right after the `INSERT INTO monitoring_runs`
creating the run in `running` state. -/
def initialState (triggeredBy : String) : DbState :=
  { run := {
      triggered_by := triggeredBy
      status := .running
      total_urls_checked := 0
      total_checks_expected := 0
      total_errors_found := 0
      current_url := none
      current_browser := none
      completed_at := false }
    urlChecks := []
    failures := []
    screenshots := []
    nextCheckId := 1
    nextFailureId := 1 }

/-- `runMonitoring`: create the run record, execute the `try` body, and
on any exception escaping it mark the run failed (with counters `0, 0`)
and re-throw. -/
def runMonitoring (cfg : Config) (env : MonitoringEnv) (triggeredBy : String) :
    Except String Nat × DbState :=
  match runMonitoringTry cfg env 1 (initialState triggeredBy) with
  | (.ok runId, s) => (.ok runId, s)
  | (.error e, s) => (.error e, completeRun s 0 0 .failed)

end MonitoringService

/-! ## FailureService (`src/backend/src/services/failureService.ts`)

The resolution workflow over `detected_failures` rows.  Only the
columns it mutates matter here, so the operations act on the
`DetectedFailureRow` record; `AppError` responses are modelled with
`Except`. -/

namespace FailureService

/-- `isValidResolutionStatus` (`src/.../utils/validators.ts`). -/
def isValidResolutionStatus (status : String) : Bool :=
  ["new", "acknowledged", "investigating", "resolved", "ignored"].contains status

/-- `updateStatus`: set the resolution status of a failure;
`resolution_notes` is updated only when present in the request
(`none` models an absent field); `resolved_at`/`resolved_by` are set
when the new status is `resolved` and cleared otherwise. -/
def updateStatus (row : MonitoringService.DetectedFailureRow)
    (resolution_status : String) (resolution_notes : Option String) (adminId : Nat) :
    Except String MonitoringService.DetectedFailureRow :=
  if !isValidResolutionStatus resolution_status then
    .error "Invalid resolution status. Must be one of: new, acknowledged, investigating, resolved, ignored"
  else
    .ok { row with
      resolution_status := resolution_status
      resolution_notes :=
        match resolution_notes with
        | some notes => if notes.isEmpty then none else some notes
        | none => row.resolution_notes
      resolved_at := resolution_status == "resolved"
      resolved_by := if resolution_status == "resolved" then some adminId else none }

/-- `updateNotes`: set the free-text notes of a failure (an empty string
is stored as `NULL`), touching nothing else. -/
def updateNotes (row : MonitoringService.DetectedFailureRow) (notes : String) :
    MonitoringService.DetectedFailureRow :=
  { row with resolution_notes := if notes.isEmpty then none else some notes }

/-- `bulkUpdateStatus`: set the resolution status of the selected
failures; `resolved_at`/`resolved_by` are set when the new status is
`resolved` and cleared otherwise; notes are untouched. -/
def bulkUpdateStatus (rows : List MonitoringService.DetectedFailureRow)
    (resolution_status : String) (adminId : Nat) :
    Except String (List MonitoringService.DetectedFailureRow) :=
  if rows.isEmpty then
    .error "No failure IDs provided"
  else if !isValidResolutionStatus resolution_status then
    .error "Invalid resolution status. Must be one of: new, acknowledged, investigating, resolved, ignored"
  else
    .ok (rows.map (fun row => { row with
      resolution_status := resolution_status
      resolved_at := resolution_status == "resolved"
      resolved_by := if resolution_status == "resolved" then some adminId else none }))

end FailureService

/-! ## Concrete fixtures

Example rows, cookie payloads and environments used to instantiate the
theorems below on concrete inputs. -/

/-- A valid full-format report payload, as in the end-to-end scenario of
the specification. -/
def validCookieJson : Json :=
  .obj [("test_id", .str "t1"), ("variant", .str "b"), ("error_type", .str "js_error"),
    ("error_message", .str "x"), ("browser", .str "Chrome"),
    ("timestamp", .str "2026-01-17T10:00:00Z")]

/-- A compact report whose error-type code `ZZ` is not in the lookup
table while its browser code `CH` is a known one. -/
def exampleCompactUnknownErrorType : Json :=
  .obj [("t", .str "T1"), ("v", .str "a"), ("e", .str "ZZ"), ("m", .str "boom"),
    ("b", .str "CH"), ("ts", .num 1768644000)]

/-- A compact report whose error-type code `JS` is a known one while
its browser code `XX` is not in the lookup table. -/
def exampleCompactUnknownBrowser : Json :=
  .obj [("t", .str "T2"), ("v", .str "b"), ("e", .str "JS"), ("m", .str "boom"),
    ("b", .str "XX"), ("ts", .num 1768644000)]

/-- A configuration with a small message bound, to exercise truncation
on a short input. -/
def cfgShortMax : Config := { maxErrorMessageLength := 10 }

/-- A 15-character message, longer than `cfgShortMax` allows. -/
def exampleLongMessage : String := String.mk (List.replicate 15 'x')

/-- A detected failure as freshly inserted by the orchestrator
(resolution columns at their schema defaults). -/
def exampleFailureRow : MonitoringService.DetectedFailureRow :=
  { failure_id := 1, check_id := 1, url_id := 11, client_id := 1, test_id := "t1",
    variant := "b", error_type := "javascript_error", error_message := "x",
    browser_from_cookie := "chrome", timestamp_from_cookie := "2026-01-17T10:00:00.000Z" }

/-- The same failure after being resolved with notes. -/
def exampleResolvedRow : MonitoringService.DetectedFailureRow :=
  { exampleFailureRow with
      resolution_status := "resolved", resolved_at := true, resolved_by := some 3,
      resolution_notes := some "root cause fixed" }

def exampleUrl1 : MonitoredUrl := ⟨11, 1, "https://a.example", true, true⟩

def exampleUrl2 : MonitoredUrl := ⟨12, 1, "https://b.example", true, true⟩

def exampleConfig1 : BrowserConfiguration := ⟨21, "Chrome", "desktop", true⟩

def exampleConfig2 : BrowserConfiguration := ⟨22, "Firefox", "desktop", true⟩

def exampleConfig3 : BrowserConfiguration := ⟨23, "Safari", "mobile", true⟩

/-- A clean (no cookie) browser check result. -/
def exampleOkResult : BrowserCheckResult :=
  { success := true, pageLoadTimeMs := some 250, cookieFound := false,
    errorDetected := false, errorData := none, screenshotPath := none,
    checkStatus := .success, errorMessage := none }

/-- An environment with a 2 × 3 task matrix whose checks all succeed but
where the progress update after the second batch rejects, so the run as
a whole fails after all six checks were persisted. -/
def exampleEnvRunFail : MonitoringService.MonitoringEnv :=
  { urlsQuery := .ok [exampleUrl1, exampleUrl2]
    configsQuery := .ok [exampleConfig1, exampleConfig2, exampleConfig3]
    check := fun _ _ => .ok exampleOkResult
    progressFail := fun i => if i == 1 then some "Database connection lost" else none }

/-- A fully healthy 1 × 1 environment. -/
def exampleEnvOk : MonitoringService.MonitoringEnv :=
  { urlsQuery := .ok [exampleUrl1]
    configsQuery := .ok [exampleConfig1]
    check := fun _ _ => .ok exampleOkResult
    progressFail := fun _ => none }

/-! # Theorems -/

section Theorems

open BrowserCheckService MonitoringService

/-! ## Message truncation (C6) -/

/-- C6.  An error message longer than the configured maximum (which is
at least 3, as is the default of 2000) is truncated so that the
persisted message has length at most the maximum and ends with the
ellipsis marker; a message within the bound is returned unchanged. -/
theorem truncation_bound (cfg : Config) (h3 : 3 ≤ cfg.maxErrorMessageLength)
    (message : String) :
    (message.length ≤ cfg.maxErrorMessageLength →
      truncateErrorMessage cfg message = message) ∧
    (cfg.maxErrorMessageLength < message.length →
      (truncateErrorMessage cfg message).length ≤ cfg.maxErrorMessageLength ∧
      ∃ p, truncateErrorMessage cfg message = p ++ "...") := by
  constructor
  · intro hle
    simp [truncateErrorMessage, hle]
  · intro hgt
    have hnle : ¬ message.length ≤ cfg.maxErrorMessageLength := by omega
    refine ⟨?_, ?_⟩
    · simp only [truncateErrorMessage, hnle, if_false, jsSliceEnd, String.length_append]
      have hstop : (if ((cfg.maxErrorMessageLength : Int) - 3) < 0 then
          (((message.data.length : Int)) + ((cfg.maxErrorMessageLength : Int) - 3)).toNat
        else min ((cfg.maxErrorMessageLength : Int) - 3).toNat message.data.length) =
          cfg.maxErrorMessageLength - 3 := by
        have : ¬ ((cfg.maxErrorMessageLength : Int) - 3) < 0 := by omega
        simp only [this, if_false]
        have hlen : message.length = message.data.length := rfl
        omega
      rw [hstop]
      have : (String.mk (message.data.take (cfg.maxErrorMessageLength - 3))).length =
          min (cfg.maxErrorMessageLength - 3) message.data.length := by
        show (message.data.take (cfg.maxErrorMessageLength - 3)).length = _
        simp [List.length_take]
      have hlen : message.length = message.data.length := rfl
      have hdots : ("..." : String).length = 3 := rfl
      omega
    · refine ⟨jsSliceEnd message ((cfg.maxErrorMessageLength : Int) - 3), ?_⟩
      simp [truncateErrorMessage, hnle]

/-- C6 witness: a 15-character message under a 10-character bound. -/
theorem truncation_bound_witness :
    cfgShortMax.maxErrorMessageLength < exampleLongMessage.length ∧
    (truncateErrorMessage cfgShortMax exampleLongMessage).length ≤
      cfgShortMax.maxErrorMessageLength ∧
    ∃ p, truncateErrorMessage cfgShortMax exampleLongMessage = p ++ "..." := by
  have h := (truncation_bound cfgShortMax (by decide) exampleLongMessage).2 (by decide)
  exact ⟨by decide, h.1, h.2⟩

/-! ## Failure classification precedence (C5) -/

/-- C5.  A navigation exception is classified with the precedence:
message contains the explicit `Timeout` marker → `timeout`; otherwise
matches an unreachable pattern → `unreachable`; otherwise → `error`.
This holds both for the exception handler of `performSingleCheck` and
for `createFailureResult`. -/
theorem classification_precedence (cfg : Config) (t : Int) (msg : String) :
    (jsIncludes msg "Timeout" = true →
      (performSingleCheck cfg (.exn t msg)).checkStatus = .timeout ∧
      (createFailureResult cfg (some msg) t).checkStatus = .timeout) ∧
    (jsIncludes msg "Timeout" = false → BrowserCheckService.isUnreachableError msg = true →
      (performSingleCheck cfg (.exn t msg)).checkStatus = .unreachable ∧
      (createFailureResult cfg (some msg) t).checkStatus = .unreachable) ∧
    (jsIncludes msg "Timeout" = false → BrowserCheckService.isUnreachableError msg = false →
      (performSingleCheck cfg (.exn t msg)).checkStatus = .error ∧
      (createFailureResult cfg (some msg) t).checkStatus = .error) := by
  refine ⟨fun h1 => ?_, fun h1 h2 => ?_, fun h1 h2 => ?_⟩
  · simp [performSingleCheck, createFailureResult, classifyFailure, h1]
  · simp [performSingleCheck, createFailureResult, classifyFailure, h1, h2]
  · simp [performSingleCheck, createFailureResult, classifyFailure, h1, h2]

/-- C5 witness: a connection-refused navigation error is classified
`unreachable`. -/
theorem classification_precedence_witness :
    (performSingleCheck cfgD
      (.exn 5 "net::ERR_CONNECTION_REFUSED at https://x.example")).checkStatus =
      .unreachable := by
  have h := (classification_precedence cfgD 5
    "net::ERR_CONNECTION_REFUSED at https://x.example").2.1 (by decide) (by decide)
  exact h.1

/-! ## Unknown compact codes (C7) -/

/-- C7.  Decoding a compact report always succeeds (no exception:
`parseCookieValue` returns the decoded report), and each of the two
codes is handled independently: whenever the error-type code is not in
its lookup table it passes through unchanged as the canonical
`error_type` value, and whenever the browser code is not in its lookup
table it passes through unchanged as the canonical `browser` value —
so reports with one unrecognized code and one known code are covered
as well as reports with both unrecognized. -/
theorem unknown_code_tolerance (data : Json) (ts : Int)
    (hc : isCompactFormat data = true)
    (hts : data.getField "ts" = .num ts)
    (hrange : ts.natAbs * 1000 ≤ maxDateRangeMs) :
    parseCookieValue (.parsed data) = some (decodeCompactCookie data) ∧
    (∀ e, data.getField "e" = .str e → ERROR_TYPE_CODES.lookup e = none →
      (decodeCompactCookie data).getField "error_type" = .str e) ∧
    (∀ b, data.getField "b" = .str b → BROWSER_CODES.lookup b = none →
      (decodeCompactCookie data).getField "browser" = .str b) := by
  refine ⟨?_, ?_, ?_⟩
  · simp [parseCookieValue, hc, hts, hrange]
  · intro e he hne
    have : (decodeCompactCookie data).getField "error_type" =
        jsOrJson (lookupCodeTable ERROR_TYPE_CODES (data.getField "e")) (data.getField "e") :=
      rfl
    rw [this, he]
    simp [lookupCodeTable, hne, jsOrJson, Json.truthy]
  · intro b hb hnb
    have : (decodeCompactCookie data).getField "browser" =
        jsOrJson (lookupCodeTable BROWSER_CODES (data.getField "b")) (data.getField "b") :=
      rfl
    rw [this, hb]
    simp [lookupCodeTable, hnb, jsOrJson, Json.truthy]

/-- C7 witness: a report with unknown error-type code `ZZ` but known
browser code `CH` decodes with `ZZ` passed through (and `CH` mapped to
`chrome`), and a report with known error-type code `JS` but unknown
browser code `XX` decodes with `XX` passed through. -/
theorem unknown_code_tolerance_witness :
    parseCookieValue (.parsed exampleCompactUnknownErrorType) =
      some (decodeCompactCookie exampleCompactUnknownErrorType) ∧
    (decodeCompactCookie exampleCompactUnknownErrorType).getField "error_type" =
      .str "ZZ" ∧
    (decodeCompactCookie exampleCompactUnknownErrorType).getField "browser" =
      .str "chrome" ∧
    parseCookieValue (.parsed exampleCompactUnknownBrowser) =
      some (decodeCompactCookie exampleCompactUnknownBrowser) ∧
    (decodeCompactCookie exampleCompactUnknownBrowser).getField "error_type" =
      .str "javascript_error" ∧
    (decodeCompactCookie exampleCompactUnknownBrowser).getField "browser" = .str "XX" := by
  have h1 := unknown_code_tolerance exampleCompactUnknownErrorType 1768644000
    rfl rfl (by decide)
  have h2 := unknown_code_tolerance exampleCompactUnknownBrowser 1768644000
    rfl rfl (by decide)
  exact ⟨h1.1, h1.2.1 "ZZ" rfl rfl, rfl, h2.1, rfl, h2.2.2 "XX" rfl rfl⟩

/-! ## Malformed cookies do not fail the check (C8) -/

/-- C8.  When the signaling cookie is present but the codec fails
(malformed JSON, or a decoded value without the six required string
fields), the check result is `success` with `cookieFound = true`,
`errorDetected = false` and no report; no exception escapes (the
embedded codec and check are total functions whose results are
characterized here). -/
theorem malformed_cookie_never_escalated (cfg : Config) (t : Int) (sp : String)
    (cookieValue : CookieParseOutcome)
    (h : parseCookieValue cookieValue = none ∨
      ∃ j, parseCookieValue cookieValue = some j ∧ isValidErrorData j = false) :
    (performSingleCheck cfg (.ok t (some cookieValue) sp)).checkStatus = .success ∧
    (performSingleCheck cfg (.ok t (some cookieValue) sp)).success = true ∧
    (performSingleCheck cfg (.ok t (some cookieValue) sp)).cookieFound = true ∧
    (performSingleCheck cfg (.ok t (some cookieValue) sp)).errorDetected = false ∧
    (performSingleCheck cfg (.ok t (some cookieValue) sp)).errorData = none := by
  rcases h with h | ⟨j, hj, hv⟩
  · simp [performSingleCheck, h]
  · simp [performSingleCheck, hj, hv]

/-- C8 witness: an unparseable cookie value. -/
theorem malformed_cookie_never_escalated_witness :
    (performSingleCheck cfgD (.ok 250 (some .malformed) "")).checkStatus = .success ∧
    (performSingleCheck cfgD (.ok 250 (some .malformed) "")).cookieFound = true ∧
    (performSingleCheck cfgD (.ok 250 (some .malformed) "")).errorDetected = false := by
  have h := malformed_cookie_never_escalated cfgD 250 "" .malformed (Or.inl rfl)
  exact ⟨h.1, h.2.2.1, h.2.2.2.1⟩

/-! ## Shape of `checkUrl` results (shared helpers) -/

/-- Every result produced by the retry loop is either a
`performSingleCheck` result or a `createFailureResult`. -/
theorem checkUrlLoop_result_shape (cfg : Config) (attempts : Nat → AttemptOutcome) :
    ∀ (fuel attempt : Nat) (lastError : Option String) (delays : List Nat),
    (∃ nav, (checkUrlLoop cfg attempts attempt fuel lastError delays).result =
      performSingleCheck cfg nav) ∨
    (∃ m, (checkUrlLoop cfg attempts attempt fuel lastError delays).result =
      createFailureResult cfg m 0) := by
  intro fuel
  induction fuel with
  | zero =>
    intro attempt lastError delays
    exact .inr ⟨lastError, rfl⟩
  | succ f ih =>
    intro attempt lastError delays
    rw [checkUrlLoop]
    cases attempts attempt with
    | result nav =>
      dsimp only
      split
      · exact .inl ⟨nav, rfl⟩
      · split
        · exact ih (attempt + 1) _ _
        · exact ih (attempt + 1) _ _
    | thrown message =>
      dsimp only
      split
      · exact .inr ⟨some message, rfl⟩
      · exact ih (attempt + 1) _ _

/-- A single-check result with `errorDetected = true` is the
valid-cookie success record. -/
theorem performSingleCheck_errorDetected (cfg : Config) (nav : NavOutcome)
    (h : (performSingleCheck cfg nav).errorDetected = true) :
    (performSingleCheck cfg nav).checkStatus = .success ∧
    (performSingleCheck cfg nav).cookieFound = true ∧
    (performSingleCheck cfg nav).errorData ≠ none ∧
    (performSingleCheck cfg nav).success = true := by
  cases nav with
  | ok t cookie sp =>
    cases cookie with
    | none => simp [performSingleCheck] at h
    | some cv =>
      simp only [performSingleCheck] at h ⊢
      cases hpv : parseCookieValue cv with
      | none => rw [hpv] at h; simp at h
      | some j =>
        rw [hpv] at h
        by_cases hv : isValidErrorData j
        · simp [hv]
        · simp [hv] at h
  | exn t msg => simp [performSingleCheck] at h

/-- A single-check result with status `unreachable` comes from the
exception handler, so it carries no cookie and a measured (present)
page-load time. -/
theorem performSingleCheck_unreachable (cfg : Config) (nav : NavOutcome)
    (h : (performSingleCheck cfg nav).checkStatus = .unreachable) :
    (performSingleCheck cfg nav).cookieFound = false ∧
    (performSingleCheck cfg nav).errorDetected = false ∧
    (performSingleCheck cfg nav).pageLoadTimeMs ≠ none := by
  cases nav with
  | ok t cookie sp =>
    cases cookie with
    | none => simp [performSingleCheck] at h
    | some cv =>
      simp only [performSingleCheck] at h ⊢
      cases hpv : parseCookieValue cv with
      | none => rw [hpv] at h; simp at h
      | some j =>
        rw [hpv] at h
        by_cases hv : isValidErrorData j
        · simp [hv] at h
        · simp [hv] at h
  | exn t msg => simp [performSingleCheck]

/-! ## Application failures only on clean checks (C10) -/

/-- C10.  Every result returned by the executor with
`errorDetected = true` has `checkStatus = success`,
`cookieFound = true`, a non-null report, and `success = true`: an
application-level failure is only ever reported on a check that itself
completed, never on a timeout, error or unreachable outcome. -/
theorem errorDetected_on_clean_check (cfg : Config) (attempts : Nat → AttemptOutcome)
    (h : (checkUrl cfg attempts).result.errorDetected = true) :
    (checkUrl cfg attempts).result.checkStatus = .success ∧
    (checkUrl cfg attempts).result.cookieFound = true ∧
    (checkUrl cfg attempts).result.errorData ≠ none ∧
    (checkUrl cfg attempts).result.success = true := by
  rcases checkUrlLoop_result_shape cfg attempts cfg.maxRetries 1 none [] with ⟨nav, hn⟩ | ⟨m, hm⟩
  · rw [checkUrl] at h ⊢
    rw [hn] at h ⊢
    exact performSingleCheck_errorDetected cfg nav h
  · rw [checkUrl] at h
    rw [hm] at h
    simp [createFailureResult] at h

/-- C10 witness: a check finding a valid failure cookie. -/
theorem errorDetected_on_clean_check_witness :
    (checkUrl cfgD (fun _ => .result (.ok 250 (some (.parsed validCookieJson))
        "/screenshots/failure_x.png"))).result.checkStatus = .success ∧
    (checkUrl cfgD (fun _ => .result (.ok 250 (some (.parsed validCookieJson))
        "/screenshots/failure_x.png"))).result.errorData ≠ none := by
  have h := errorDetected_on_clean_check cfgD
    (fun _ => .result (.ok 250 (some (.parsed validCookieJson)) "/screenshots/failure_x.png"))
    (by decide)
  exact ⟨h.1, h.2.2.1⟩

/-! ## Unreachable checks (C3) -/

/-- C3 counterexample: an unreachable outcome records a present
page-load duration (the elapsed time, here 123 ms), contradicting the
claim that `pageLoadTimeMs` is absent when `status = unreachable`. -/
theorem unreachable_pageLoadTime_counterexample :
    (performSingleCheck cfgD (.exn 123 "net::ERR_CONNECTION_REFUSED")).checkStatus =
      .unreachable ∧
    (performSingleCheck cfgD (.exn 123 "net::ERR_CONNECTION_REFUSED")).pageLoadTimeMs =
      some 123 ∧
    (performSingleCheck cfgD (.exn 123 "net::ERR_CONNECTION_REFUSED")).pageLoadTimeMs ≠
      none := by
  refine ⟨by decide, by decide, by decide⟩

/-- C3 as amended: every executor result with `status = unreachable` has
`cookieFound = false` (and `errorDetected = false`); its
`pageLoadTimeMs` is recorded as the measured elapsed time — present,
not absent. -/
theorem unreachable_invariant_amended (cfg : Config) (attempts : Nat → AttemptOutcome)
    (h : (checkUrl cfg attempts).result.checkStatus = .unreachable) :
    (checkUrl cfg attempts).result.cookieFound = false ∧
    (checkUrl cfg attempts).result.errorDetected = false ∧
    (checkUrl cfg attempts).result.pageLoadTimeMs ≠ none := by
  rcases checkUrlLoop_result_shape cfg attempts cfg.maxRetries 1 none [] with ⟨nav, hn⟩ | ⟨m, hm⟩
  · rw [checkUrl] at h ⊢
    rw [hn] at h ⊢
    exact performSingleCheck_unreachable cfg nav h
  · rw [checkUrl] at h ⊢
    rw [hm] at h ⊢
    simp [createFailureResult]

/-- C3 witness: a DNS failure. -/
theorem unreachable_invariant_amended_witness :
    (checkUrl cfgD (fun _ => .result
      (.exn 44 "getaddrinfo ENOTFOUND x.example"))).result.cookieFound = false ∧
    (checkUrl cfgD (fun _ => .result
      (.exn 44 "getaddrinfo ENOTFOUND x.example"))).result.pageLoadTimeMs ≠ none := by
  have h := unreachable_invariant_amended cfgD
    (fun _ => .result (.exn 44 "getaddrinfo ENOTFOUND x.example")) (by decide)
  exact ⟨h.1, h.2.2⟩

/-! ## Retry policy (C4) -/

/-- The retry loop under uniformly retryable failing attempts runs all
`maxRetries` attempts, sleeping `retryDelayMs × attemptNumber` between
them, and ends with the failure built from the last attempt. -/
theorem checkUrlLoop_all_retryable (cfg : Config) (navs : Nat → NavOutcome)
    (hAll : ∀ i, (performSingleCheck cfg (navs i)).success = false ∧
      isRetryableError (match (performSingleCheck cfg (navs i)).errorMessage with
        | some m => m
        | none => "") = true) :
    ∀ (fuel attempt : Nat) (lastError : Option String) (delays : List Nat),
    attempt + fuel = cfg.maxRetries + 1 → 1 ≤ fuel →
    checkUrlLoop cfg (fun i => .result (navs i)) attempt fuel lastError delays =
      { result := createFailureResult cfg
          (performSingleCheck cfg (navs cfg.maxRetries)).errorMessage 0
        delays := delays ++ (List.range (fuel - 1)).map
          (fun k => cfg.retryDelayMs * (attempt + k))
        attemptsUsed := cfg.maxRetries } := by
  intro fuel
  induction fuel with
  | zero => intro attempt lastError delays _ h1; omega
  | succ f ih =>
    intro attempt lastError delays hsum _
    rw [checkUrlLoop]
    dsimp only
    rw [(hAll attempt).1, (hAll attempt).2]
    simp only [Bool.false_or, Bool.not_true, if_false, Bool.false_eq_true]
    cases Nat.eq_zero_or_pos f with
    | inl hf0 =>
      subst hf0
      have hA : ¬ attempt < cfg.maxRetries := by omega
      have hAm : attempt = cfg.maxRetries := by omega
      simp only [hA, if_false]
      rw [checkUrlLoop]
      subst hAm
      simp
    | inr hfpos =>
      have hA : attempt < cfg.maxRetries := by omega
      simp only [hA, if_true]
      rw [ih (attempt + 1) _ _ (by omega) (by omega)]
      congr 1
      rw [List.append_assoc]
      congr 1
      obtain ⟨g, rfl⟩ : ∃ g, f = g + 1 := ⟨f - 1, by omega⟩
      simp only [Nat.add_sub_cancel, List.range_succ_eq_map, List.map_cons, Nat.add_zero,
        List.map_map, List.singleton_append, Nat.succ_sub_one]
      congr 1
      apply List.map_congr_left
      intro a _
      simp only [Function.comp_apply, Nat.succ_eq_add_one]
      ring_nf

/-- C4 counterexample: with the default configuration
(`maxRetries = 3`), a check failing with a connection-refused error is
classified `unreachable` and returned after a single attempt with no
backoff sleep, while a check failing with a `Target closed` error (an
`error` classification) is retried through all 3 attempts with sleeps
of 1000 ms and 2000 ms — so not every failure classification is retried
identically, and `unreachable` in particular does not go through the
retries. -/
theorem retry_policy_counterexample :
    (checkUrl cfgD (fun _ => .result
      (.exn 5 "connect ECONNREFUSED 127.0.0.1:80"))).result.checkStatus = .unreachable ∧
    (checkUrl cfgD (fun _ => .result
      (.exn 5 "connect ECONNREFUSED 127.0.0.1:80"))).attemptsUsed = 1 ∧
    (checkUrl cfgD (fun _ => .result
      (.exn 5 "connect ECONNREFUSED 127.0.0.1:80"))).delays = [] ∧
    (checkUrl cfgD (fun _ => .result (.exn 7 "Target closed"))).result.checkStatus =
      .error ∧
    (checkUrl cfgD (fun _ => .result (.exn 7 "Target closed"))).attemptsUsed = 3 ∧
    (checkUrl cfgD (fun _ => .result (.exn 7 "Target closed"))).delays = [1000, 2000] ∧
    cfgD.maxRetries = 3 := by
  refine ⟨?_, ?_, ?_, ?_, ?_, ?_, ?_⟩ <;> decide

/-- C4 as amended: when every attempt fails with a message matching a
retryable pattern, the executor sleeps `retryDelayMs × attemptNumber`
(linear backoff) between attempts, performs the full `maxRetries`
attempts, and returns the failure classified from the last attempt;
a failing attempt whose (possibly rewritten) message matches no
retryable pattern is returned immediately after one attempt with no
sleep. -/
theorem retry_policy_amended (cfg : Config) (navs : Nat → NavOutcome)
    (hN : 1 ≤ cfg.maxRetries) :
    ((∀ i, (performSingleCheck cfg (navs i)).success = false ∧
        isRetryableError (match (performSingleCheck cfg (navs i)).errorMessage with
          | some m => m
          | none => "") = true) →
      checkUrl cfg (fun i => .result (navs i)) =
        { result := createFailureResult cfg
            (performSingleCheck cfg (navs cfg.maxRetries)).errorMessage 0
          delays := (List.range (cfg.maxRetries - 1)).map
            (fun k => cfg.retryDelayMs * (1 + k))
          attemptsUsed := cfg.maxRetries }) ∧
    ((performSingleCheck cfg (navs 1)).success = false →
      isRetryableError (match (performSingleCheck cfg (navs 1)).errorMessage with
        | some m => m
        | none => "") = false →
      checkUrl cfg (fun i => .result (navs i)) =
        { result := performSingleCheck cfg (navs 1)
          delays := []
          attemptsUsed := 1 }) := by
  constructor
  · intro hAll
    rw [checkUrl, checkUrlLoop_all_retryable cfg navs hAll cfg.maxRetries 1 none [] (by omega)
      (by omega)]
    simp
  · intro h1 h2
    obtain ⟨f, hf⟩ : ∃ f, cfg.maxRetries = f + 1 := ⟨cfg.maxRetries - 1, by omega⟩
    rw [checkUrl, hf, checkUrlLoop]
    dsimp only
    rw [h1, h2]
    simp

/-- C4 witness: both branches at concrete inputs — retried `Target
closed` failures and an immediately returned connection-refused
failure. -/
theorem retry_policy_amended_witness :
    checkUrl cfgD (fun _ => .result (.exn 7 "Target closed")) =
      { result := createFailureResult cfgD (some "Target closed") 0
        delays := [1000, 2000]
        attemptsUsed := 3 } ∧
    checkUrl cfgD (fun _ => .result (.exn 5 "connect ECONNREFUSED 127.0.0.1:80")) =
      { result := performSingleCheck cfgD (.exn 5 "connect ECONNREFUSED 127.0.0.1:80")
        delays := []
        attemptsUsed := 1 } := by
  constructor
  · have h := (retry_policy_amended cfgD (fun _ => .exn 7 "Target closed")
      (by decide)).1 (fun i => ⟨rfl, rfl⟩)
    rw [h]
    decide
  · exact (retry_policy_amended cfgD
      (fun _ => .exn 5 "connect ECONNREFUSED 127.0.0.1:80") (by decide)).2
      rfl rfl

/-! ## Resolution metadata (C9) -/

/-- The `resolved` branch of a status update populates
`resolved_at`/`resolved_by` exactly when the new status is
`resolved`. -/
theorem resolvedFieldsIff (st : String) (adminId : Nat) :
    (st = "resolved" ↔ (st == "resolved") = true) ∧
    (st = "resolved" ↔ (if (st == "resolved") = true then some adminId else none) ≠ none) := by
  constructor
  · exact beq_iff_eq.symm
  · constructor
    · intro hst
      simp [hst]
    · intro hby
      by_cases hst : st = "resolved"
      · exact hst
      · simp [hst] at hby

/-- C9 counterexample: `updateNotes` populates the free-text notes on a
failure whose status is `new` (metadata populated while not resolved),
and a status update away from `resolved` clears `resolved_at` and
`resolved_by` but leaves the notes populated — so the claimed
"metadata iff resolved" invariant fails for notes in both
directions. -/
theorem resolution_metadata_counterexample :
    (FailureService.updateNotes exampleFailureRow "investigating this").resolution_notes ≠
      none ∧
    (FailureService.updateNotes exampleFailureRow "investigating this").resolution_status ≠
      "resolved" ∧
    FailureService.updateStatus exampleResolvedRow "acknowledged" none 3 =
      .ok { exampleResolvedRow with
        resolution_status := "acknowledged", resolved_at := false, resolved_by := none } ∧
    ({ exampleResolvedRow with
        resolution_status := "acknowledged", resolved_at := false,
        resolved_by := none } : DetectedFailureRow).resolution_notes =
      some "root cause fixed" := by
  refine ⟨by decide, by decide, rfl, rfl⟩

/-- C9 as amended: the resolver identity (`resolved_by`) and resolution
time (`resolved_at`) are populated if and only if the resolution status
is `resolved`, and every status change away from `resolved` (via
`updateStatus` or `bulkUpdateStatus`) clears those two fields; the
free-text notes are managed independently of the status and are neither
required when resolved nor cleared on a status change
(`updateNotes` touches only the notes). -/
theorem resolution_metadata_amended :
    (∀ (row : DetectedFailureRow) (st : String) (notes : Option String) (adminId : Nat)
        (r : DetectedFailureRow),
      FailureService.updateStatus row st notes adminId = .ok r →
      ((r.resolution_status = "resolved" ↔ r.resolved_at = true) ∧
       (r.resolution_status = "resolved" ↔ r.resolved_by ≠ none))) ∧
    (∀ (rows : List DetectedFailureRow) (st : String) (adminId : Nat)
        (out : List DetectedFailureRow),
      FailureService.bulkUpdateStatus rows st adminId = .ok out →
      ∀ r ∈ out,
        ((r.resolution_status = "resolved" ↔ r.resolved_at = true) ∧
         (r.resolution_status = "resolved" ↔ r.resolved_by ≠ none))) ∧
    (∀ (row : DetectedFailureRow) (notes : String),
      (FailureService.updateNotes row notes).resolution_status = row.resolution_status ∧
      (FailureService.updateNotes row notes).resolved_at = row.resolved_at ∧
      (FailureService.updateNotes row notes).resolved_by = row.resolved_by) := by
  refine ⟨?_, ?_, ?_⟩
  · intro row st notes adminId r h
    unfold FailureService.updateStatus at h
    split at h
    · exact absurd h (by simp)
    · rw [Except.ok.injEq] at h
      subst h
      exact ⟨(resolvedFieldsIff st adminId).1, (resolvedFieldsIff st adminId).2⟩
  · intro rows st adminId out h
    unfold FailureService.bulkUpdateStatus at h
    split at h
    · exact absurd h (by simp)
    · split at h
      · exact absurd h (by simp)
      · rw [Except.ok.injEq] at h
        subst h
        intro r hr
        rw [List.mem_map] at hr
        obtain ⟨row, _, rfl⟩ := hr
        exact ⟨(resolvedFieldsIff st adminId).1, (resolvedFieldsIff st adminId).2⟩
  · intro row notes
    exact ⟨rfl, rfl, rfl⟩

/-- C9 witness: resolving a fresh failure populates `resolved_by`;
writing notes leaves `resolved_at` untouched. -/
theorem resolution_metadata_amended_witness :
    ({ exampleFailureRow with
        resolution_status := "resolved", resolved_at := true,
        resolved_by := some 7 } : DetectedFailureRow).resolved_by ≠ none ∧
    (FailureService.updateNotes exampleFailureRow "investigating this").resolved_at =
      exampleFailureRow.resolved_at := by
  constructor
  · exact (resolution_metadata_amended.1 exampleFailureRow "resolved" none 7
      { exampleFailureRow with
        resolution_status := "resolved", resolved_at := true, resolved_by := some 7 }
      rfl).2.mp rfl
  · exact (resolution_metadata_amended.2.2 exampleFailureRow "investigating this").2.1

/-! ## Run-level failure finalization (C1) -/

/-- C1 counterexample: in `exampleEnvRunFail` a progress update rejects
after all six checks of a 2 × 3 matrix have been persisted, so the
exception escapes the run; the run is marked `failed` and the exception
re-surfaces, but the frozen counters read `0`, not the last known
values (6 checks had completed). -/
theorem run_failure_counters_counterexample :
    (runMonitoring cfgD exampleEnvRunFail "manual").1 = .error "Database connection lost" ∧
    (runMonitoring cfgD exampleEnvRunFail "manual").2.run.status = .failed ∧
    (runMonitoring cfgD exampleEnvRunFail "manual").2.urlChecks.length = 6 ∧
    (runMonitoring cfgD exampleEnvRunFail "manual").2.run.total_urls_checked = 0 ∧
    (runMonitoring cfgD exampleEnvRunFail "manual").2.run.total_errors_found = 0 := by
  refine ⟨rfl, rfl, rfl, rfl, rfl⟩

/-- C1 as amended: when an unhandled exception escapes the whole run,
the run is marked `failed` with its completion time set, the
currently-executing fields cleared, both counters reset to `0` (not the
last known values), and the same exception is re-surfaced to the
trigger caller. -/
theorem run_failure_finalization_amended (cfg : Config) (env : MonitoringEnv)
    (triggeredBy : String) (e : String)
    (h : (runMonitoringTry cfg env 1 (initialState triggeredBy)).1 = .error e) :
    (runMonitoring cfg env triggeredBy).1 = .error e ∧
    (runMonitoring cfg env triggeredBy).2.run.status = .failed ∧
    (runMonitoring cfg env triggeredBy).2.run.completed_at = true ∧
    (runMonitoring cfg env triggeredBy).2.run.total_urls_checked = 0 ∧
    (runMonitoring cfg env triggeredBy).2.run.total_errors_found = 0 ∧
    (runMonitoring cfg env triggeredBy).2.run.current_url = none ∧
    (runMonitoring cfg env triggeredBy).2.run.current_browser = none := by
  rw [runMonitoring]
  rcases hm : runMonitoringTry cfg env 1 (initialState triggeredBy) with ⟨r, s⟩
  rw [hm] at h
  cases r with
  | ok rid => exact absurd h (by simp)
  | error e2 =>
    simp only at h
    rw [Except.error.injEq] at h
    subst h
    exact ⟨rfl, rfl, rfl, rfl, rfl, rfl, rfl⟩

/-- C1 witness: the failing environment of the counterexample. -/
theorem run_failure_finalization_amended_witness :
    (runMonitoring cfgD exampleEnvRunFail "manual").1 = .error "Database connection lost" ∧
    (runMonitoring cfgD exampleEnvRunFail "manual").2.run.status = .failed := by
  have h := run_failure_finalization_amended cfgD exampleEnvRunFail "manual"
    "Database connection lost" rfl
  exact ⟨h.1, h.2.1⟩

/-! ## Matrix completeness (C2) -/

/-- `performCheck` always persists exactly one `url_checks` row,
whatever the outcome. -/
theorem performCheck_adds_one_urlCheck (runId : Nat) (url : MonitoredUrl)
    (browserConfig : BrowserConfiguration) (outcome : Except String BrowserCheckResult)
    (s : DbState) :
    ((performCheck runId url browserConfig outcome s).2).urlChecks.length =
      s.urlChecks.length + 1 := by
  cases outcome with
  | ok result =>
    simp only [performCheck, insertUrlCheck]
    cases result.errorData with
    | some errorData =>
      by_cases hd : result.errorDetected
      · simp only [hd, if_true, recordFailure]
        split
        · split <;> simp
        · simp
      · simp [hd]
    | none => simp
  | error msg => simp [performCheck, insertUrlCheck]

/-- `performCheck` never touches the run row. -/
theorem performCheck_preserves_run (runId : Nat) (url : MonitoredUrl)
    (browserConfig : BrowserConfiguration) (outcome : Except String BrowserCheckResult)
    (s : DbState) :
    ((performCheck runId url browserConfig outcome s).2).run = s.run := by
  cases outcome with
  | ok result =>
    simp only [performCheck, insertUrlCheck]
    cases result.errorData with
    | some errorData =>
      by_cases hd : result.errorDetected
      · simp only [hd, if_true, recordFailure]
        split
        · split <;> simp
        · simp
      · simp [hd]
    | none => simp
  | error msg => simp [performCheck, insertUrlCheck]

/-- A batch never touches the run row. -/
theorem processBatch_preserves_run (runId : Nat) (env : MonitoringEnv) :
    ∀ (batch : List CheckTask) (s : DbState),
    ((processBatch runId env batch s).2).run = s.run := by
  intro batch
  induction batch with
  | nil => intro s; simp [processBatch]
  | cons task rest ih =>
    intro s
    rw [processBatch]
    dsimp only
    rw [ih, performCheck_preserves_run]

/-- A batch of `k` tasks persists exactly `k` `url_checks` rows. -/
theorem processBatch_adds_urlChecks (runId : Nat) (env : MonitoringEnv) :
    ∀ (batch : List CheckTask) (s : DbState),
    ((processBatch runId env batch s).2).urlChecks.length =
      s.urlChecks.length + batch.length := by
  intro batch
  induction batch with
  | nil => intro s; simp [processBatch]
  | cons task rest ih =>
    intro s
    rw [processBatch]
    dsimp only
    rw [ih]
    rw [performCheck_adds_one_urlCheck]
    simp only [List.length_cons]
    omega

/-- A batch yields one settled result per task. -/
theorem processBatch_length_results (runId : Nat) (env : MonitoringEnv) :
    ∀ (batch : List CheckTask) (s : DbState),
    ((processBatch runId env batch s).1).length = batch.length := by
  intro batch
  induction batch with
  | nil => intro s; simp [processBatch]
  | cons task rest ih =>
    intro s
    rw [processBatch]
    dsimp only
    simp [ih]

/-- A batch loop that finishes without a rejection persists one
`url_checks` row per task of every batch and leaves the run status
untouched. -/
theorem runBatches_ok_urlChecks (cfg : Config) (env : MonitoringEnv)
    (runId totalExpected : Nat) :
    ∀ (batches : List (List CheckTask)) (batchIdx totalChecked totalErrorsFound : Nat)
      (s : DbState) (counters : Nat × Nat) (s' : DbState),
    runBatches cfg env runId totalExpected batches batchIdx totalChecked totalErrorsFound s =
      (.ok counters, s') →
    s'.urlChecks.length = s.urlChecks.length + (batches.map List.length).sum ∧
    s'.run.status = s.run.status := by
  intro batches
  induction batches with
  | nil =>
    intro batchIdx tc te s counters s' h
    rw [runBatches] at h
    rw [Prod.mk.injEq] at h
    rw [← h.2]
    simp
  | cons batch rest ih =>
    intro batchIdx tc te s counters s' h
    rw [runBatches] at h
    dsimp only at h
    rcases hpf : env.progressFail batchIdx with _ | e2
    · rw [hpf] at h
      dsimp only at h
      have := ih (batchIdx + 1) _ _ _ counters s' h
      rw [this.1, this.2]
      constructor
      · simp only [updateRunProgressWithErrors]
        rw [processBatch_adds_urlChecks]
        simp only [updateRunProgress]
        simp only [List.map_cons, List.sum_cons]
        omega
      · simp only [updateRunProgressWithErrors]
        rw [processBatch_preserves_run]
        simp [updateRunProgress]
    · rw [hpf] at h
      dsimp only at h
      rw [Prod.mk.injEq] at h
      exact absurd h.1 (by simp)

/-- For a positive batch size, the batches together cover exactly the
task list. -/
theorem chunksGo_sum_length (n : Nat) (hn : 0 < n) :
    ∀ (fuel : Nat) (l : List CheckTask), l.length ≤ fuel →
    ((chunksGo n fuel l).map List.length).sum = l.length := by
  intro fuel
  induction fuel with
  | zero =>
    intro l hl
    cases l with
    | nil => simp [chunksGo]
    | cons a as => simp at hl
  | succ f ih =>
    intro l hl
    cases l with
    | nil => simp [chunksGo]
    | cons a as =>
      rw [chunksGo]
      simp only [List.map_cons, List.sum_cons, List.length_take]
      rw [ih ((a :: as).drop n)
        (by simp only [List.length_drop, List.length_cons] at hl ⊢; omega)]
      simp only [List.length_drop, List.length_cons]
      omega

/-- The task matrix of `m` URLs and `k` browser configurations has
`m × k` tasks. -/
theorem taskMatrix_length (urls : List MonitoredUrl) (configs : List BrowserConfiguration) :
    (urls.flatMap (fun u => configs.map (fun c => ((u, c) : CheckTask)))).length =
      urls.length * configs.length := by
  induction urls with
  | nil => simp
  | cons u us ih =>
    simp only [List.flatMap_cons, List.length_append, List.length_map, ih, List.length_cons]
    ring

/-- A `try` body that returns normally has persisted exactly
`M × K` `url_checks` rows and completed the run. -/
theorem runMonitoringTry_completed (cfg : Config) (env : MonitoringEnv) (runId : Nat)
    (s : DbState) (urls : List MonitoredUrl) (configs : List BrowserConfiguration)
    (hu : env.urlsQuery = .ok urls) (hc : env.configsQuery = .ok configs)
    (hmcc : 0 < cfg.maxConcurrentChecks) (rid : Nat) (s' : DbState)
    (h : runMonitoringTry cfg env runId s = (.ok rid, s')) :
    s'.urlChecks.length = s.urlChecks.length +
      (urls.filter (fun u => u.is_active && u.has_active_test)).length *
        (configs.filter (fun c => c.is_active)).length ∧
    s'.run.status = .completed ∧ s'.run.completed_at = true := by
  rw [runMonitoringTry, hu] at h
  dsimp only at h
  by_cases hM : (urls.filter (fun u => u.is_active && u.has_active_test)).length = 0
  · rw [if_pos hM] at h
    rw [Prod.mk.injEq] at h
    rw [← h.2, hM]
    simp [completeRun]
  · rw [if_neg hM, hc] at h
    dsimp only at h
    by_cases hK : (configs.filter (fun c => c.is_active)).length = 0
    · rw [if_pos hK] at h
      rw [Prod.mk.injEq] at h
      rw [← h.2, hK]
      simp [completeRun]
    · rw [if_neg hK] at h
      rcases hrb : runBatches cfg env runId
          ((urls.filter (fun u => u.is_active && u.has_active_test)).flatMap
            (fun url => (configs.filter (fun c => c.is_active)).map (fun c => (url, c)))).length
          (chunks cfg.maxConcurrentChecks
            ((urls.filter (fun u => u.is_active && u.has_active_test)).flatMap
              (fun url => (configs.filter (fun c => c.is_active)).map (fun c => (url, c)))))
          0 0 0
          (updateRunProgress s 0
            ((urls.filter (fun u => u.is_active && u.has_active_test)).flatMap
              (fun url => (configs.filter (fun c => c.is_active)).map (fun c => (url, c)))).length
            none none)
        with ⟨res, s2⟩
      rw [hrb] at h
      cases res with
      | error e =>
        dsimp only at h
        rw [Prod.mk.injEq] at h
        exact absurd h.1 (by simp)
      | ok counters =>
        dsimp only at h
        rw [Prod.mk.injEq] at h
        have hlen := runBatches_ok_urlChecks cfg env runId _ _ _ _ _ _ counters s2 hrb
        rw [← h.2]
        refine ⟨?_, rfl, rfl⟩
        simp only [completeRun]
        rw [hlen.1]
        rw [chunks, chunksGo_sum_length cfg.maxConcurrentChecks hmcc _ _ (Nat.le_refl _)]
        rw [taskMatrix_length]
        simp [updateRunProgress]

/-- C2.  A run over `M` active monitored targets and `K` active browser
profiles that completes normally persists exactly `M × K`
`url_checks` rows — one per task, whatever the individual outcomes —
and ends with status `completed` (batch size positive, as is the
default of 5). -/
theorem matrix_completeness (cfg : Config) (env : MonitoringEnv) (triggeredBy : String)
    (urls : List MonitoredUrl) (configs : List BrowserConfiguration)
    (hu : env.urlsQuery = .ok urls) (hc : env.configsQuery = .ok configs)
    (hmcc : 0 < cfg.maxConcurrentChecks) (rid : Nat)
    (hok : (runMonitoring cfg env triggeredBy).1 = .ok rid) :
    (runMonitoring cfg env triggeredBy).2.urlChecks.length =
      (urls.filter (fun u => u.is_active && u.has_active_test)).length *
        (configs.filter (fun c => c.is_active)).length ∧
    (runMonitoring cfg env triggeredBy).2.run.status = .completed := by
  rcases hm : runMonitoringTry cfg env 1 (initialState triggeredBy) with ⟨r, s⟩
  rw [runMonitoring, hm] at hok ⊢
  cases r with
  | error e => simp at hok
  | ok rid2 =>
    dsimp only at hok ⊢
    have := runMonitoringTry_completed cfg env 1 (initialState triggeredBy) urls configs
      hu hc hmcc rid2 s hm
    rw [this.1]
    exact ⟨by simp [initialState], this.2.1⟩

/-- C2 witness: the healthy 1 × 1 environment persists exactly one
check and completes. -/
theorem matrix_completeness_witness :
    0 < cfgD.maxConcurrentChecks ∧
    (runMonitoring cfgD exampleEnvOk "cron").2.urlChecks.length = 1 ∧
    (runMonitoring cfgD exampleEnvOk "cron").2.run.status = .completed := by
  have h := matrix_completeness cfgD exampleEnvOk "cron" [exampleUrl1] [exampleConfig1]
    rfl rfl (by decide) 1 rfl
  exact ⟨by decide, by rw [h.1]; decide, h.2⟩

end Theorems

end ABLogger
